import Mathlib

/-!
Shallow embedding of the state-controller logic of the AI-Burnout-Agent
frontend (Angular, TypeScript), covering:

* `Dashboard`   — src/agent-frontend/src/app/hr/dashboard/dashboard.ts
* `PredictionTable` — src/agent-frontend/src/app/hr/prediction-table/prediction-table.ts
* `Reviews`     — src/unnamed/part_000 (Reviews component)
* `ReviewModal` — src/unnamed/part_001 (ReviewModal component)
* `EmployeeDailyLogs` — src/agent-frontend/src/app/hr/employee-daily-logs/employee-daily-logs.ts

Conventions of the embedding:
* TypeScript `string | null` / optional fields become `Option String`;
  JavaScript truthiness on such a field (`if (x)`) is `none` or the empty
  string being falsy, modelled by `truthyFilter` / explicit matches.
* An HTTP call is modelled by the request value the component would issue;
  a component method that issues a request returns the updated component
  state together with that request. Subscribe callbacks become explicit
  state-transition functions applied when the response arrives.
* The single-threaded event loop is modelled by folding arrival events
  over the component state in their arrival order.
-/

/-- JavaScript `String.prototype.toUpperCase`, modelled character-wise
(`Char.toUpper` is the ASCII upcasing; every status value in play is
ASCII). -/
def jsToUpper (s : String) : String :=
  String.mk (s.data.map Char.toUpper)

/-- JavaScript `String.prototype.toLowerCase`, modelled character-wise. -/
def jsToLower (s : String) : String :=
  String.mk (s.data.map Char.toLower)

namespace Dashboard

/-- Payload of a successful `GET /api/dashboard/` response as the component
reads it: the component stores the whole object in the `dashboardData`
signal and reads `data.total`. Rows are kept abstract as strings. -/
structure DashboardData where
  employees : List String
  total : Nat
deriving DecidableEq, Repr

/-- The query-relevant mutable fields of the `Dashboard` class
(dashboard.ts lines 32–45). `paginatorPageIndex` mirrors the
`@ViewChild(MatPaginator)` reference, `none` when the view child is not
yet available. Static option lists (`pageSizeOptions`, `statuses`,
`trends`, `departments`) are display data not used by the claims. -/
structure State where
  dashboardData : Option DashboardData
  isLoaded : Bool
  pageSize : Nat
  pageIndex : Nat
  totalItems : Nat
  filterDepartment : Option String
  filterStatus : Option String
  filterTrend : Option String
  paginatorPageIndex : Option Nat
deriving DecidableEq, Repr

/-- The query parameters of one `GET /api/dashboard/?...` request
(dashboard.ts lines 87–102). A filter field is `none` exactly when the
corresponding `&department=`/`&status=`/`&trend=` fragment is absent from
the URL. `encodeURIComponent` is the identity on the abstract values. -/
structure DashRequest where
  page : Nat
  page_size : Nat
  department : Option String
  status : Option String
  trend : Option String
deriving DecidableEq, Repr

/-- JavaScript truthiness of a `string | null` filter: `null` and the
empty string are falsy, so `if (this.filterDepartment)` skips both. -/
def truthyFilter : Option String → Option String
  | none => none
  | some s => if s = "" then none else some s

/-- Builds the request of `loadDashboardData` (dashboard.ts lines 86–103):
`page = pageIndex + 1` (backend is 1-based), filters included only when
truthy. -/
def buildRequest (st : State) : DashRequest :=
  { page := st.pageIndex + 1
    page_size := st.pageSize
    department := truthyFilter st.filterDepartment
    status := truthyFilter st.filterStatus
    trend := truthyFilter st.filterTrend }

/-- Embeds `loadDashboardData` (dashboard.ts lines 86–115): reads the current
state, issues exactly one GET request and mutates nothing before the
response arrives. -/
def loadDashboardData (st : State) : State × DashRequest :=
  (st, buildRequest st)

/-- The `next:` callback of `loadDashboardData` (dashboard.ts lines
105–110): stores the payload in the signal, copies `data.total` to
`totalItems` and sets `isLoaded`. -/
def applySuccess (st : State) (data : DashboardData) : State :=
  { st with dashboardData := some data, totalItems := data.total, isLoaded := true }

/-- The `error:` callback of `loadDashboardData` (dashboard.ts lines
111–113): the body is a single `console.error` call, so every field of
the component state is left untouched; no error flag exists in the class. -/
def applyFetchError (st : State) : State :=
  st

/-- Outcome of one dashboard list fetch as seen by the subscribe callbacks. -/
inductive FetchOutcome
  | success (data : DashboardData)
  | failure
deriving DecidableEq, Repr

/-- Dispatch of one arriving response to the subscribe callbacks of
dashboard.ts lines 104–115. The callback is attached per-request but its
body never consults which request it belongs to: any arriving success
overwrites the published state. -/
def handleResponse (st : State) : FetchOutcome → State
  | .success data => applySuccess st data
  | .failure => applyFetchError st

/-- Event-loop semantics of several in-flight fetches: responses are
applied one by one in arrival order (which may differ from issue order). -/
def runArrivals (st : State) (arrivals : List FetchOutcome) : State :=
  arrivals.foldl handleResponse st

/-- Embeds `onPageChange` (dashboard.ts lines 117–121): copies the paginator
event's `pageIndex` and `pageSize` into the state, then re-fetches. There
is no reset of `pageIndex` here, for page-size changes or otherwise. -/
def onPageChange (st : State) (eventPageIndex eventPageSize : Nat) :
    State × DashRequest :=
  let st' := { st with pageIndex := eventPageIndex, pageSize := eventPageSize }
  loadDashboardData st'

/-- Embeds `onFilterChange` (dashboard.ts lines 123–130): called after an
`ngModel` binding has already written the new filter value; resets
`pageIndex` (and the paginator's, when present) to 0, then re-fetches. -/
def onFilterChange (st : State) : State × DashRequest :=
  let st' := { st with
    pageIndex := 0
    paginatorPageIndex := match st.paginatorPageIndex with
      | some _ => some 0
      | none => none }
  loadDashboardData st'

/-- Embeds `clearFilters` (dashboard.ts lines 132–141): nulls all three filters,
resets `pageIndex` (and the paginator's, when present) to 0, then
re-fetches once. -/
def clearFilters (st : State) : State × DashRequest :=
  let st' := { st with
    filterDepartment := none
    filterStatus := none
    filterTrend := none
    pageIndex := 0
    paginatorPageIndex := match st.paginatorPageIndex with
      | some _ => some 0
      | none => none }
  loadDashboardData st'

/-- A loaded dashboard state used as a concrete scenario. -/
def sampleLoadedState : State :=
  { dashboardData := some { employees := ["Ann"], total := 5 }
    isLoaded := true
    pageSize := 10
    pageIndex := 4
    totalItems := 5
    filterDepartment := none
    filterStatus := none
    filterTrend := none
    paginatorPageIndex := some 4 }

/-- Result of query A in the out-of-order scenario. -/
def respA : DashboardData := { employees := ["row from query A"], total := 1 }

/-- Result of query B in the out-of-order scenario. -/
def respB : DashboardData := { employees := ["row from query B"], total := 2 }

end Dashboard

namespace PredictionTable

/-- One raw backend prediction record as the `predictions` setter reads it
(prediction-table.ts lines 14–28). The backend record may additionally
carry the stored human verdict (`feedback_is_correct`); the setter reads
only `has_feedback`, never the verdict value itself. -/
structure RawPrediction where
  name : Option String
  role : String
  department : String
  risk_score : Int
  status : Option String
  trend : Option String
  has_feedback : Bool
  feedback_is_correct : Option Bool
deriving DecidableEq, Repr

/-- The `EmployeeData` display row (prediction-table.ts / dashboard.ts
interface `EmployeeData`). -/
structure EmployeeData where
  initial : String
  name : Option String
  role : String
  department : String
  riskScore : Int
  status : Option String
  statusClass : String
  trendIcon : String
  feedbackType : String
deriving DecidableEq, Repr

/-- JavaScript `item.name || '?'`: `null` and the empty string are falsy
and fall through to the placeholder. -/
def jsOrPlaceholder (s : Option String) (d : String) : String :=
  match s with
  | none => d
  | some str => if str = "" then d else str

/-- JavaScript `.charAt(0)`: the first character as a one-character
string (empty input would give the empty string). -/
def charAt0 (s : String) : String :=
  s.take 1

/-- Embeds `getStatusClass` (prediction-table.ts lines 34–43): switch on
`status?.toUpperCase()`; `status` being `null`/`undefined` makes the
scrutinee `undefined`, which falls to the `default` branch. -/
def getStatusClass (status : Option String) : String :=
  match status.map jsToUpper with
  | some "CRITICAL" => "status-critical"
  | some "HIGH" => "status-high"
  | some "MEDIUM" => "status-medium"
  | some "LOW" => "status-low"
  | some "NORMAL" => "status-low"
  | _ => "status-low"

/-- Embeds `getTrendIcon` (prediction-table.ts lines 45–51): switch on
`trend?.toLowerCase()`. -/
def getTrendIcon (trend : Option String) : String :=
  match trend.map jsToLower with
  | some "increasing" => "trending_up"
  | some "decreasing" => "trending_down"
  | _ => "trending_flat"

/-- The per-item mapping inside the `predictions` setter
(prediction-table.ts lines 16–26). `feedbackType` is
`item.has_feedback ? 'confirmed' : 'buttons'` — the stored verdict is not
consulted. -/
def mapItem (item : RawPrediction) : EmployeeData :=
  { initial := charAt0 (jsOrPlaceholder item.name "?")
    name := item.name
    role := item.role
    department := item.department
    riskScore := item.risk_score
    status := item.status
    statusClass := getStatusClass item.status
    trendIcon := getTrendIcon item.trend
    feedbackType := if item.has_feedback then "confirmed" else "buttons" }

/-- The `predictions` input setter (prediction-table.ts lines 14–28):
`if (data)` keeps the previous `dataSource` when the input is null. -/
def predictionsSetter (dataSource : List EmployeeData)
    (data : Option (List RawPrediction)) : List EmployeeData :=
  match data with
  | none => dataSource
  | some d => d.map mapItem

/-- A backend record carrying a stored rejection verdict
(`has_feedback = true`, `feedback_is_correct = some false`). -/
def rejectedRecord : RawPrediction :=
  { name := some "Ann"
    role := "Engineer"
    department := "Engineering"
    risk_score := 80
    status := some "HIGH"
    trend := some "increasing"
    has_feedback := true
    feedback_is_correct := some false }

end PredictionTable

namespace Reviews

/-- Embeds `PendingReview` (Reviews component, src/unnamed/part_000 lines 8–16).
Numeric fields (`burnout_rate`, `confidence_score`) are modelled as
rationals. -/
structure PendingReview where
  id : Nat
  daily_log_id : Nat
  burnout_risk : String
  burnout_rate : Rat
  confidence_score : Rat
  confidence_percentage : String
  created_at : String
deriving DecidableEq, Repr

/-- The mutable fields of the `Reviews` component: the full pending list
(the component feeds it to a client-side `MatTableDataSource`) and the
loading flag. The component holds no page index of its own. -/
structure RevState where
  data : List PendingReview
  isLoading : Bool
deriving DecidableEq, Repr

/-- The HTTP requests the `Reviews` component can issue. None of the
three URLs in the source (`/api/reviews/pending`, `/api/reviews/{id}`,
`/api/reviews/{id}/submit`) carries a `page` or `page_size` query
parameter. -/
inductive RevRequest
  | getPending
  | getDetail (id : Nat)
  | postSubmit (id : Nat) (is_correct : Bool) (hr_notes : String)
deriving DecidableEq, Repr

/-- The page number a `Reviews` request asks for: always `none`, because
no request of this component is paginated (see `RevRequest`). -/
def requestPage : RevRequest → Option Nat :=
  fun _ => none

/-- Embeds `loadPendingReviews` (part_000 lines 41–58): sets `isLoading` and
issues the single unpaginated fetch of the whole pending list. -/
def loadPendingReviews (st : RevState) : RevState × List RevRequest :=
  ({ st with isLoading := true }, [RevRequest.getPending])

/-- The `next:` callback of `loadPendingReviews` (part_000 lines 44–52):
replaces the table data wholesale and clears `isLoading`. -/
def applyPendingSuccess (st : RevState) (data : List PendingReview) : RevState :=
  { st with data := data, isLoading := false }

/-- Embeds `getStatusClass` (part_000 lines 60–69): same switch as the
prediction table's, except that the `default` branch returns
`'status-default'`. -/
def getStatusClass (status : Option String) : String :=
  match status.map jsToUpper with
  | some "CRITICAL" => "status-critical"
  | some "HIGH" => "status-high"
  | some "MEDIUM" => "status-medium"
  | some "LOW" => "status-low"
  | some "NORMAL" => "status-low"
  | _ => "status-default"

/-- Embeds `submitReview` (part_000 lines 109–115): issues the POST of the
verdict payload `{is_correct, hr_notes}`. -/
def submitReview (id : Nat) (is_correct : Bool) (hr_notes : String) :
    List RevRequest :=
  [RevRequest.postSubmit id is_correct hr_notes]

/-- The `next:` callback of `submitReview`'s POST (part_000 lines
116–119): its whole body is a log line and `this.loadPendingReviews()`,
so the only follow-up request is the unpaginated full re-fetch. -/
def onSubmitSuccess (st : RevState) : RevState × List RevRequest :=
  loadPendingReviews st

end Reviews

namespace ReviewModal

/-- The value of `reviewForm` (ReviewModal, src/unnamed/part_001 lines
201–204): `hr_notes` with `Validators.required` and
`Validators.maxLength(500)`, `is_correct` a boolean defaulting to true. -/
structure VerdictForm where
  hr_notes : String
  is_correct : Bool
deriving DecidableEq, Repr

/-- Angular form validity for `reviewForm`: `required` fails exactly on
the empty string, `maxLength(500)` fails exactly when the length exceeds
500; `required` on the boolean control never fails (`false` is not an
empty value). -/
def formValid (f : VerdictForm) : Bool :=
  decide (0 < f.hr_notes.length) && decide (f.hr_notes.length ≤ 500)

/-- Embeds `onConfirm` (part_001 lines 244–248): closes the dialog with the form
value when the form is valid, otherwise does nothing (the dialog stays
open and returns no result). -/
def onConfirm (f : VerdictForm) : Option VerdictForm :=
  if formValid f then some f else none

/-- The spec's §4.3 review-workflow states, used to phrase claims about
the modal lifecycle: the open dialog is `AwaitingVerdict`, a dispatched
verdict POST is `Submitting`. -/
inductive WorkflowState
  | Idle
  | DetailLoading
  | AwaitingVerdict
  | Submitting
  | Done
  | Errored
deriving DecidableEq, Repr

/-- The confirm action of an open review dialog for review `id`, composed
from `ReviewModal.onConfirm` and the `afterClosed` handler of
`Reviews.reviewPrediction` (part_000 lines 96–100): a valid form closes
the dialog and `Reviews.submitReview` issues the POST (`Submitting`); an
invalid form leaves the dialog open with no request (`AwaitingVerdict`). -/
def confirmStep (id : Nat) (f : VerdictForm) :
    WorkflowState × List Reviews.RevRequest :=
  match onConfirm f with
  | some r => (WorkflowState.Submitting, Reviews.submitReview id r.is_correct r.hr_notes)
  | none => (WorkflowState.AwaitingVerdict, [])

end ReviewModal

namespace EmployeeDailyLogs

/-- One row of the daily-log table (employee-daily-logs.ts interface
`DailyLog`); numbers modelled as rationals. -/
structure DailyLog where
  id : Nat
  log_date : String
  hours_worked : Rat
  hours_slept : Rat
  stress_level : Rat
  motivation_level : Rat
  burnout_risk : String
  burnout_rate : Rat
deriving DecidableEq, Repr

/-- The `@ViewChild(MatPaginator)` reference as the component reads it:
its current 0-based `pageIndex` and `pageSize`. -/
structure Paginator where
  pageIndex : Nat
  pageSize : Nat
deriving DecidableEq, Repr

/-- The mutable fields of `EmployeeDailyLogs` (employee-daily-logs.ts
lines 14–31). `paginator` is `none` before the view child is available.
`selectedEmployeeId : number | null` is an `Option Int`. -/
structure LogsState where
  selectedEmployeeId : Option Int
  dataSource : List DailyLog
  totalLogs : Nat
  pageSize : Nat
  isLoaded : Bool
  isLoading : Bool
  paginator : Option Paginator
deriving DecidableEq, Repr

/-- One `GET /api/daily-logs/employee/{id}?page=&page_size=` request
(employee-daily-logs.ts line 65). -/
structure LogsRequest where
  employeeId : Int
  page : Nat
  page_size : Nat
deriving DecidableEq, Repr

/-- Embeds `loadLogs` (employee-daily-logs.ts lines 58–78). The guard
`if (!this.selectedEmployeeId) return;` fires on `null` (and on the falsy
id 0), issuing nothing and touching nothing. Otherwise `isLoading` is
set and one request is issued with `page = paginator.pageIndex + 1`
(1 when the paginator is not yet available). -/
def loadLogs (st : LogsState) : LogsState × List LogsRequest :=
  match st.selectedEmployeeId with
  | none => (st, [])
  | some empId =>
    if empId = 0 then (st, [])
    else
      let st' := { st with isLoading := true }
      let page := match st.paginator with
        | some p => p.pageIndex + 1
        | none => 1
      let size := match st.paginator with
        | some p => p.pageSize
        | none => st.pageSize
      (st', [{ employeeId := empId, page := page, page_size := size }])

/-- The `next:` callback of `loadLogs` (lines 67–72): replaces the rows,
copies `response.total`, sets `isLoaded`, clears `isLoading`. -/
def applyLogsSuccess (st : LogsState) (items : List DailyLog) (total : Nat) :
    LogsState :=
  { st with dataSource := items, totalLogs := total, isLoaded := true, isLoading := false }

/-- The `error:` callback of `loadLogs` (lines 73–76): logs to the
console and clears `isLoading` only. -/
def applyLogsError (st : LogsState) : LogsState :=
  { st with isLoading := false }

/-- A concrete state with no employee selected. -/
def noSelectionState : LogsState :=
  { selectedEmployeeId := none
    dataSource := []
    totalLogs := 0
    pageSize := 10
    isLoaded := false
    isLoading := false
    paginator := none }

end EmployeeDailyLogs

/-- C1, counterexample. Scenario: from the loaded state (pageIndex 4) the
component issues query A (`loadDashboardData`, page 5); the user then
changes a filter, so `onFilterChange` issues the distinct query B
(page 1) while A is still in flight. B's response `respB` arrives first,
A's response `respA` arrives after. The subscribe callbacks apply every
arriving response with no staleness guard, so the published state equals
A's (stale) result, not B's — refuting the claim that A's late response
is discarded and the published state equals B's result. -/
theorem c1_stale_response_overwrites :
    (Dashboard.loadDashboardData Dashboard.sampleLoadedState).2
        ≠ (Dashboard.onFilterChange Dashboard.sampleLoadedState).2
    ∧ (Dashboard.runArrivals (Dashboard.onFilterChange Dashboard.sampleLoadedState).1
        [Dashboard.FetchOutcome.success Dashboard.respB,
         Dashboard.FetchOutcome.success Dashboard.respA]).dashboardData
        = some Dashboard.respA
    ∧ Dashboard.respA ≠ Dashboard.respB :=
  ⟨by decide, rfl, by decide⟩

/-- C1, amended: the published dashboard state is determined by arrival
order alone — whatever successful response arrives last is published
(`dashboardData`, `totalItems`, `isLoaded`), regardless of which fetch
was issued most recently; superseded in-flight fetches are not
discarded. -/
theorem c1_last_arrival_wins (st : Dashboard.State)
    (pre : List Dashboard.FetchOutcome) (d : Dashboard.DashboardData) :
    (Dashboard.runArrivals st (pre ++ [Dashboard.FetchOutcome.success d])).dashboardData
        = some d
    ∧ (Dashboard.runArrivals st (pre ++ [Dashboard.FetchOutcome.success d])).totalItems
        = d.total
    ∧ (Dashboard.runArrivals st (pre ++ [Dashboard.FetchOutcome.success d])).isLoaded
        = true := by
  unfold Dashboard.runArrivals
  rw [List.foldl_append]
  exact ⟨rfl, rfl, rfl⟩

/-- C2, counterexample: the `Reviews` copy of the status-class mapping
(cited by the claim alongside the prediction-table copy) sends the
unrecognized status `"weird"` to a fifth class `"status-default"`, not to
the low class — so the status-class mapping does not return one of
exactly four classes with any other input mapping to the low class. -/
theorem c2_reviews_unrecognized_default :
    Reviews.getStatusClass (some "weird") = "status-default"
    ∧ Reviews.getStatusClass (some "weird") ≠ "status-low"
    ∧ ¬(Reviews.getStatusClass (some "weird") = "status-critical"
        ∨ Reviews.getStatusClass (some "weird") = "status-high"
        ∨ Reviews.getStatusClass (some "weird") = "status-medium"
        ∨ Reviews.getStatusClass (some "weird") = "status-low") := by
  refine ⟨rfl, by decide, by decide⟩

/-- C2, amended: both status-class mappings are total (never throw) and
agree on recognized statuses — uppercased CRITICAL/HIGH/MEDIUM map to the
critical/high/medium classes and LOW/NORMAL to the low class. The
prediction-table copy returns one of exactly four classes, mapping every
other input (including null) to the low class; the `Reviews` copy maps
every other input (including null) to a distinct `status-default` class,
so it returns one of five classes. -/
theorem c2_status_class_mapping (s : String) (t : Option String) :
    (PredictionTable.getStatusClass t = "status-critical"
      ∨ PredictionTable.getStatusClass t = "status-high"
      ∨ PredictionTable.getStatusClass t = "status-medium"
      ∨ PredictionTable.getStatusClass t = "status-low")
    ∧ PredictionTable.getStatusClass (some s) =
        (if jsToUpper s = "CRITICAL" then "status-critical"
         else if jsToUpper s = "HIGH" then "status-high"
         else if jsToUpper s = "MEDIUM" then "status-medium"
         else "status-low")
    ∧ PredictionTable.getStatusClass none = "status-low"
    ∧ Reviews.getStatusClass (some s) =
        (if jsToUpper s = "CRITICAL" then "status-critical"
         else if jsToUpper s = "HIGH" then "status-high"
         else if jsToUpper s = "MEDIUM" then "status-medium"
         else if jsToUpper s = "LOW" then "status-low"
         else if jsToUpper s = "NORMAL" then "status-low"
         else "status-default")
    ∧ Reviews.getStatusClass none = "status-default" := by
  refine ⟨?_, ?_, rfl, ?_, rfl⟩
  · unfold PredictionTable.getStatusClass
    split <;> simp
  · unfold PredictionTable.getStatusClass
    simp only [Option.map_some']
    split <;> simp_all
  · unfold Reviews.getStatusClass
    simp only [Option.map_some']
    split <;> simp_all

/-- C3: a verdict whose `hr_notes` is empty or longer than 500 characters
fails the `reviewForm` validators, so `onConfirm` leaves the dialog open:
the workflow stays in `AwaitingVerdict` and no request — in particular no
POST to the submit endpoint — is issued. -/
theorem c3_invalid_verdict_rejected_locally (id : Nat)
    (f : ReviewModal.VerdictForm)
    (h : f.hr_notes.length = 0 ∨ 500 < f.hr_notes.length) :
    ReviewModal.confirmStep id f =
      (ReviewModal.WorkflowState.AwaitingVerdict, []) := by
  have hv : ReviewModal.formValid f = false := by
    unfold ReviewModal.formValid
    rcases h with h | h
    · simp [h]
    · have hle : ¬ f.hr_notes.length ≤ 500 := by omega
      simp [hle]
  unfold ReviewModal.confirmStep ReviewModal.onConfirm
  simp [hv]

/-- C3, witness: submitting `{is_correct := true, hr_notes := ""}` for
review 7 stays in `AwaitingVerdict` and issues no request. -/
theorem c3_invalid_verdict_witness :
    (("" : String).length = 0 ∨ 500 < ("" : String).length)
    ∧ ReviewModal.confirmStep 7 { hr_notes := "", is_correct := true } =
        (ReviewModal.WorkflowState.AwaitingVerdict, []) :=
  ⟨Or.inl rfl,
   c3_invalid_verdict_rejected_locally 7 { hr_notes := "", is_correct := true }
     (Or.inl rfl)⟩

/-- C4, counterexample. From the loaded state on `pageIndex = 4` with
`pageSize = 10`, the user changes the page size to 25; Angular Material's
paginator keeps the first visible item in view and emits the page event
`(pageIndex = ⌊40/25⌋ = 1, pageSize = 25)`. `onPageChange` copies the
event's `pageIndex` verbatim, so the state's `pageIndex` becomes 1 (not
0) and the next issued request asks for page 2 (not page 1) — refuting
the claim that every page-size change resets `pageIndex` to 0 before the
next fetch. -/
theorem c4_page_size_change_no_reset :
    (Dashboard.onPageChange Dashboard.sampleLoadedState 1 25).1.pageIndex = 1
    ∧ (Dashboard.onPageChange Dashboard.sampleLoadedState 1 25).1.pageIndex ≠ 0
    ∧ (Dashboard.onPageChange Dashboard.sampleLoadedState 1 25).2.page = 2
    ∧ (Dashboard.onPageChange Dashboard.sampleLoadedState 1 25).2.page ≠ 1 :=
  ⟨rfl, by decide, rfl, by decide⟩

/-- C4, amended: every filter change (`onFilterChange`, `clearFilters`)
resets `pageIndex` to 0 before its fetch, so the next issued request is
for page 1; a page-size change, which arrives through `onPageChange`,
does not reset: the state adopts the paginator event's `pageIndex`
unchanged and the next issued request is for page `eventPageIndex + 1`. -/
theorem c4_filter_reset_page_event_copy (st : Dashboard.State)
    (eventPageIndex eventPageSize : Nat) :
    (Dashboard.onFilterChange st).1.pageIndex = 0
    ∧ (Dashboard.onFilterChange st).2.page = 1
    ∧ (Dashboard.clearFilters st).1.pageIndex = 0
    ∧ (Dashboard.clearFilters st).2.page = 1
    ∧ (Dashboard.onPageChange st eventPageIndex eventPageSize).1.pageIndex
        = eventPageIndex
    ∧ (Dashboard.onPageChange st eventPageIndex eventPageSize).2.page
        = eventPageIndex + 1 :=
  ⟨rfl, rfl, rfl, rfl, rfl, rfl⟩

/-- C5, counterexample. After a successful verdict POST (scenario: the
pending set shrank so that the displayed page — page 3 of 3 under the
client-side paginator — became empty), the success callback's entire
follow-up is `loadPendingReviews`: the single issued request is the
unpaginated `getPending` full-list fetch, which carries no page
parameter. No request for the stepped-back page (page 2) exists, and the
`Reviews` component state holds no page index to step back — refuting
the claim that the controller steps back one page and re-fetches. -/
theorem c5_no_step_back_fetch :
    (Reviews.onSubmitSuccess { data := [], isLoading := false }).2
        = [Reviews.RevRequest.getPending]
    ∧ Reviews.requestPage Reviews.RevRequest.getPending = none
    ∧ Reviews.requestPage Reviews.RevRequest.getPending ≠ some 2 :=
  ⟨rfl, rfl, by decide⟩

/-- C5, amended: after every successful verdict submission the pending
queue is re-fetched, but as a single unpaginated request for the whole
pending list (`getPending`, no page parameter); the controller performs
no per-page fetch and no step-back — pagination of the re-fetched list is
handled client-side outside this component. -/
theorem c5_refetch_is_unpaginated (st : Reviews.RevState) :
    (Reviews.onSubmitSuccess st).2 = [Reviews.RevRequest.getPending]
    ∧ Reviews.requestPage Reviews.RevRequest.getPending = none
    ∧ (Reviews.onSubmitSuccess st).1 = { st with isLoading := true } :=
  ⟨rfl, rfl, rfl⟩

/-- C6, counterexample: a record carrying a stored rejection verdict
(`has_feedback = true`, `feedback_is_correct = some false`) is normalized
to `feedbackType = "confirmed"`, not `"rejected"` — the mapping reads
only `has_feedback` and never the verdict value, refuting the claim that
a record whose stored verdict is a rejection is displayed as rejected. -/
theorem c6_rejection_displayed_confirmed :
    PredictionTable.rejectedRecord.has_feedback = true
    ∧ PredictionTable.rejectedRecord.feedback_is_correct = some false
    ∧ (PredictionTable.mapItem PredictionTable.rejectedRecord).feedbackType
        = "confirmed"
    ∧ (PredictionTable.mapItem PredictionTable.rejectedRecord).feedbackType
        ≠ "rejected" :=
  ⟨rfl, rfl, rfl, by decide⟩

/-- C6, amended: the feedback state is binary — any record with a prior
verdict present (`has_feedback`) is displayed as confirmed, regardless of
whether the stored verdict accepted or rejected the prediction, and any
record without one is displayed as unreviewed (actionable buttons); no
record is ever displayed as rejected. -/
theorem c6_feedback_state_binary (item : PredictionTable.RawPrediction) :
    ((PredictionTable.mapItem item).feedbackType = "confirmed"
      ↔ item.has_feedback = true)
    ∧ ((PredictionTable.mapItem item).feedbackType = "buttons"
      ↔ item.has_feedback = false)
    ∧ (PredictionTable.mapItem item).feedbackType ≠ "rejected" := by
  cases h : item.has_feedback <;> simp [PredictionTable.mapItem, h]

/-- C7: the issued dashboard request's page is `pageIndex + 1` and
`loadDashboardData` leaves the state — in particular the 0-based
`pageIndex` — unchanged; likewise the employee-daily-logs request's page
is the paginator's `pageIndex + 1`, with the paginator's index and the
selection untouched. -/
theorem c7_one_based_translation (st : Dashboard.State)
    (ls : EmployeeDailyLogs.LogsState) (p : EmployeeDailyLogs.Paginator)
    (empId : Int) (hsel : ls.selectedEmployeeId = some empId)
    (hnz : empId ≠ 0) (hpag : ls.paginator = some p) :
    (Dashboard.loadDashboardData st).2.page = st.pageIndex + 1
    ∧ (Dashboard.loadDashboardData st).1 = st
    ∧ (EmployeeDailyLogs.loadLogs ls).2 =
        [{ employeeId := empId, page := p.pageIndex + 1, page_size := p.pageSize }]
    ∧ (EmployeeDailyLogs.loadLogs ls).1.paginator = ls.paginator
    ∧ (EmployeeDailyLogs.loadLogs ls).1.selectedEmployeeId
        = ls.selectedEmployeeId := by
  unfold EmployeeDailyLogs.loadLogs
  rw [hsel, hpag]
  simp [Dashboard.loadDashboardData, Dashboard.buildRequest, hnz]

/-- C7, witness: with `pageIndex = 4` the dashboard requests page 5, and
with the logs paginator on index 0 the logs request asks for page 1. -/
theorem c7_one_based_translation_witness :
    ({ Dashboard.sampleLoadedState with pageIndex := 4 } :
        Dashboard.State).pageIndex = 4
    ∧ ((({ EmployeeDailyLogs.noSelectionState with
          selectedEmployeeId := some 3
          paginator := some { pageIndex := 0, pageSize := 10 } } :
            EmployeeDailyLogs.LogsState).selectedEmployeeId = some 3)
        ∧ (Dashboard.loadDashboardData Dashboard.sampleLoadedState).2.page = 4 + 1
        ∧ (EmployeeDailyLogs.loadLogs { EmployeeDailyLogs.noSelectionState with
            selectedEmployeeId := some 3
            paginator := some { pageIndex := 0, pageSize := 10 } }).2 =
          [{ employeeId := 3, page := 0 + 1, page_size := 10 }]) := by
  refine ⟨rfl, rfl, ?_, ?_⟩
  · exact (c7_one_based_translation Dashboard.sampleLoadedState
      { EmployeeDailyLogs.noSelectionState with
        selectedEmployeeId := some 3
        paginator := some { pageIndex := 0, pageSize := 10 } }
      { pageIndex := 0, pageSize := 10 } 3 rfl (by decide) rfl).1
  · exact (c7_one_based_translation Dashboard.sampleLoadedState
      { EmployeeDailyLogs.noSelectionState with
        selectedEmployeeId := some 3
        paginator := some { pageIndex := 0, pageSize := 10 } }
      { pageIndex := 0, pageSize := 10 } 3 rfl (by decide) rfl).2.2.1

/-- C8, counterexample: from a successfully loaded state, a failed fetch
leaves the entire component state literally identical — `dashboardData`,
`totalItems` and `isLoaded` are preserved (no blanking), but the state
after the failure is indistinguishable from the state before it, and the
class has no error field at all, so no explicit error indicator is
surfaced to the user (the `error:` callback only writes to the developer
console). -/
theorem c8_error_leaves_state_identical :
    Dashboard.handleResponse Dashboard.sampleLoadedState
        Dashboard.FetchOutcome.failure = Dashboard.sampleLoadedState
    ∧ (Dashboard.handleResponse Dashboard.sampleLoadedState
        Dashboard.FetchOutcome.failure).dashboardData
        = some { employees := ["Ann"], total := 5 }
    ∧ (Dashboard.handleResponse Dashboard.sampleLoadedState
        Dashboard.FetchOutcome.failure).isLoaded = true :=
  ⟨rfl, rfl, rfl⟩

/-- C8, amended: for every failed dashboard list fetch the previously
published page remains unchanged — in fact the whole component state is
unchanged (`dashboardData`, `totalItems`, `isLoaded` keep their prior
values), and consequently no user-visible error indicator is set; the
failure is only logged to the console. -/
theorem c8_error_preserves_whole_state (st : Dashboard.State) :
    Dashboard.handleResponse st Dashboard.FetchOutcome.failure = st
    ∧ (Dashboard.handleResponse st Dashboard.FetchOutcome.failure).dashboardData
        = st.dashboardData
    ∧ (Dashboard.handleResponse st Dashboard.FetchOutcome.failure).totalItems
        = st.totalItems
    ∧ (Dashboard.handleResponse st Dashboard.FetchOutcome.failure).isLoaded
        = st.isLoaded :=
  ⟨rfl, rfl, rfl, rfl⟩

/-- C9: `clearFilters` from any state nulls all three filters, resets
`pageIndex` to 0, and the single request it issues asks for page 1 with
no department, status or trend parameter. -/
theorem c9_clear_filters (st : Dashboard.State) :
    (Dashboard.clearFilters st).1.filterDepartment = none
    ∧ (Dashboard.clearFilters st).1.filterStatus = none
    ∧ (Dashboard.clearFilters st).1.filterTrend = none
    ∧ (Dashboard.clearFilters st).1.pageIndex = 0
    ∧ (Dashboard.clearFilters st).2 =
        { page := 1, page_size := st.pageSize
          department := none, status := none, trend := none } :=
  ⟨rfl, rfl, rfl, rfl, rfl⟩

/-- C10: with no employee selected (`selectedEmployeeId = null`),
`loadLogs` returns before doing anything: no request is issued and every
published field (`dataSource`, `totalLogs`, `isLoaded`, `isLoading`) is
unchanged — the state is returned as-is. -/
theorem c10_no_selection_no_fetch (st : EmployeeDailyLogs.LogsState)
    (h : st.selectedEmployeeId = none) :
    EmployeeDailyLogs.loadLogs st = (st, []) := by
  unfold EmployeeDailyLogs.loadLogs
  rw [h]

/-- C10, witness: the concrete unselected state issues nothing and keeps
its state. -/
theorem c10_no_selection_witness :
    EmployeeDailyLogs.noSelectionState.selectedEmployeeId = none
    ∧ EmployeeDailyLogs.loadLogs EmployeeDailyLogs.noSelectionState =
        (EmployeeDailyLogs.noSelectionState, []) :=
  ⟨rfl, c10_no_selection_no_fetch EmployeeDailyLogs.noSelectionState rfl⟩
